import Mathlib

/-!
Verification of the free-text calorie resolver of `app.py` (CalMate).

The resolver core consists of:
  * the static tables `FOOD_DB`, `SYNONYMS`, `WORD_NUM`, `ALT_SUGGESTIONS`;
  * `normalize_food_name` (synonym substring pass, exact catalog lookup,
    `difflib.get_close_matches` fuzzy fallback);
  * `extract_quantity` (first digit run, then number words, then defaults);
  * `estimate_calories_free_text` (catalog hit or the generic keyword
    estimator);
  * `generate_alternatives` and `activity_suggestions`.

Python `dict`s preserve insertion order, and iteration order is load-bearing
for the synonym and word-number passes, so every table is embedded as an
ordered association list in the literal order of the source.

Strings are embedded as Lean `String` (a list of unicode code points, matching
Python `str`).  The character classes used by the source's regexes and by
`str.strip`/`str.lower` are modelled on their ASCII fragment: all table keys,
keyword lists and inputs of interest are ASCII, and the non-ASCII behaviour of
Python's unicode tables is outside the scope of this development.
-/

set_option maxHeartbeats 4000000
set_option maxRecDepth 20000

namespace CalMate

/-- ASCII whitespace, the ASCII fragment of Python's `str.strip` /
regex `\s` character class. -/
def isSpaceChar (c : Char) : Bool :=
  c = ' ' || c = '\t' || c = '\n' || c = '\x0d' || c = '\x0b' || c = '\x0c'

/-- ASCII digit, the ASCII fragment of the regex class `\d`. -/
def isDigitChar (c : Char) : Bool :=
  '0' ≤ c && c ≤ '9'

/-- ASCII word character, the ASCII fragment of the regex class `\w`
(used for the `\b` word boundaries of the source's regexes). -/
def isWordChar (c : Char) : Bool :=
  isDigitChar c || ('a' ≤ c && c ≤ 'z') || ('A' ≤ c && c ≤ 'Z') || c = '_'

/-- ASCII lower-casing of one character (`str.lower`, ASCII fragment). -/
def toLowerChar (c : Char) : Char :=
  if 'A' ≤ c && c ≤ 'Z' then Char.ofNat (c.toNat + 32) else c

/-- `str.lower` on a list of characters. -/
def toLowerL (s : List Char) : List Char :=
  s.map toLowerChar

/-- `str.strip`: drop leading and trailing whitespace. -/
def stripL (s : List Char) : List Char :=
  ((s.dropWhile isSpaceChar).reverse.dropWhile isSpaceChar).reverse

/-- Helper of `collapseWs`: `inRun` records whether the previous character
was whitespace (so the run has already emitted its single space). -/
def collapseWsAux (inRun : Bool) : List Char → List Char
  | [] => []
  | c :: cs =>
    if isSpaceChar c then
      if inRun then collapseWsAux true cs else ' ' :: collapseWsAux true cs
    else c :: collapseWsAux false cs

/-- `re.sub(r"\s+", " ", s)`: every maximal run of whitespace becomes one
single space. -/
def collapseWs (s : List Char) : List Char :=
  collapseWsAux false s

/-- Is `p` a prefix of `s` (character-wise equality)? -/
def isPre : List Char → List Char → Bool
  | [], _ => true
  | _ :: _, [] => false
  | a :: as, b :: bs => a = b && isPre as bs

/-- Python's `pat in s` substring containment test. -/
def isSubstr (pat : List Char) : List Char → Bool
  | [] => pat.isEmpty
  | c :: cs => isPre pat (c :: cs) || isSubstr pat cs

/-- Lexicographic comparison of two character lists by code point:
Python's `<` on `str`. -/
def lexLt : List Char → List Char → Bool
  | [], [] => false
  | [], _ :: _ => true
  | _ :: _, [] => false
  | a :: as, b :: bs => a < b || (a = b && lexLt as bs)

/-- First-match association-list lookup (Python `dict[k]` / `k in dict`;
keys of all embedded tables are distinct, so first-match agrees with the
dict). -/
def lookupS {α : Type} : List (String × α) → String → Option α
  | [], _ => none
  | (k, v) :: rest, s => if k = s then some v else lookupS rest s

/-- The `FOOD_DB` table of `app.py`, in source order (order is the
candidate order handed to the fuzzy matcher). -/
def FOOD_DB : List (String × Int) := [
  ("roti", 80), ("chapati", 80), ("paratha", 180), ("naan", 260), ("puri", 100),
  ("rice (1 cup)", 206), ("brown rice (1 cup)", 215), ("biryani (1 plate)", 550),
  ("dal (1 cup)", 180), ("sambar (1 cup)", 150), ("rasam (1 cup)", 60),
  ("idli (1 piece)", 58), ("dosa (1):", 180), ("vada (1)", 140), ("uttapam (1)", 220),
  ("poha (1 plate)", 250), ("upma (1 bowl)", 250), ("pav bhaji (1 plate)", 450),
  ("chole (1 cup)", 280), ("rajma (1 cup)", 260),
  ("paneer butter masala (1 cup)", 450), ("kadai paneer (1 cup)", 320),
  ("butter chicken (1 cup)", 420), ("chicken curry (1 cup)", 300),
  ("mutton curry (1 cup)", 450), ("fish curry (1 cup)", 320),
  ("egg (1)", 78), ("omelette (2 eggs)", 190),
  ("maggi (1 packet)", 330),
  ("samosa (1)", 250), ("pakora (5 pcs)", 300), ("chicken roll (1)", 380),
  ("kachori (1)", 200), ("jalebi (100 g)", 400), ("golgappa (6)", 150),
  ("chai (1 cup)", 100), ("coffee (1 cup)", 60), ("lassi (1 glass)", 250),
  ("buttermilk (1 glass)", 70), ("soda (1 can)", 140),
  ("pizza slice (1)", 285), ("burger (1)", 500), ("fries (medium)", 365),
  ("sandwich (1)", 300), ("pasta (1 cup)", 220),
  ("bread slice (1)", 70), ("butter (1 tbsp)", 102), ("ghee (1 tbsp)", 120),
  ("curd (1 cup)", 200), ("yogurt (1 cup)", 150), ("milk (1 cup)", 120),
  ("oats (1 cup cooked)", 160), ("quinoa (1 cup cooked)", 220),
  ("cornflakes (1 cup)", 100),
  ("apple (1)", 95), ("banana (1)", 105), ("orange (1)", 62), ("grapes (1 cup)", 104),
  ("gulab jamun (1)", 150), ("ladoo (1)", 185), ("kheer (1 bowl)", 300), ("halwa (1 bowl)", 350),
  ("salad (1 bowl)", 120)
]

/-- The `SYNONYMS` table of `app.py`, in source order (iteration order is
load-bearing: the first key that is a substring of the phrase wins). -/
def SYNONYMS : List (String × String) := [
  ("chapathi", "chapati"),
  ("chapathi roti", "roti"),
  ("parantha", "paratha"),
  ("tea", "chai"),
  ("coffee", "coffee"),
  ("paneer butter", "paneer butter masala (1 cup)"),
  ("butter paneer", "paneer butter masala (1 cup)"),
  ("chicken biryani", "biryani (1 plate)"),
  ("veg biryani", "biryani (1 plate)"),
  ("curd", "yogurt (1 cup)"),
  ("dahi", "yogurt (1 cup)"),
  ("bhaji", "pav bhaji (1 plate)"),
  ("fried potatoes", "fries (medium)"),
  ("french fries", "fries (medium)"),
  ("omelet", "omelette (2 eggs)"),
  ("maggi noodles", "maggi (1 packet)")
]

/-- The `WORD_NUM` table of `app.py`, in source order (iteration order is
load-bearing: the first word found wins, regardless of phrase order). -/
def WORD_NUM : List (String × Nat) := [
  ("one", 1), ("two", 2), ("three", 3), ("four", 4), ("five", 5),
  ("six", 6), ("seven", 7), ("eight", 8), ("nine", 9), ("ten", 10),
  ("a", 1), ("an", 1)
]

/-- The unit tokens of the third branch of `extract_quantity`. -/
def UNIT_WORDS : List String :=
  ["cup", "bowl", "plate", "slice", "piece", "pcs", "glass"]

/-! ### Quantity extraction (`extract_quantity`) -/

/-- Leading maximal run of ASCII digits. -/
def takeDigits : List Char → List Char
  | [] => []
  | c :: cs => if isDigitChar c then c :: takeDigits cs else []

/-- `re.search(r"(\d+)", text)`: the first maximal run of digits anywhere
in the text, if any. -/
def firstDigitRun : List Char → Option (List Char)
  | [] => none
  | c :: cs =>
    if isDigitChar c then some (c :: takeDigits cs) else firstDigitRun cs

/-- `int` on a digit string, as an accumulator fold. -/
def parseDigitsAux (acc : Nat) : List Char → Nat
  | [] => acc
  | c :: cs => parseDigitsAux (acc * 10 + (c.toNat - 48)) cs

/-- Helper of `hasWholeWord`: scan every start position, remembering the
previous character for the left word boundary. -/
def hwAux (w : List Char) : Option Char → List Char → Bool
  | _, [] => false
  | prev, c :: cs =>
    ((match prev with
      | none => true
      | some p => !isWordChar p) &&
     isPre w (c :: cs) &&
     (match (c :: cs).drop w.length with
      | [] => true
      | d :: _ => !isWordChar d)) ||
    hwAux w (some c) cs

/-- `re.search(rf"\b{w}\b", text) is not None` for a word `w` made of word
characters: `w` occurs in `text` delimited by word boundaries.  Note that
this is case-sensitive, exactly like the source's regex (no `re.I`). -/
def hasWholeWord (w t : List Char) : Bool :=
  hwAux w none t

/-- First `WORD_NUM` entry (in table order) whose key occurs as a whole
word in the text. -/
def wordNumFirst (t : List Char) : List (String × Nat) → Option Nat
  | [] => none
  | (w, v) :: rest =>
    if hasWholeWord w.data t then some v else wordNumFirst t rest

/-- `extract_quantity` of `app.py`: first digit run (clamped to a minimum
of 1), else first word-number in table order, else 1 (the unit-token branch
of the source also returns 1; it is kept to mirror the source's shape). -/
def extract_quantity (text : String) : Nat :=
  match firstDigitRun text.data with
  | some ds => max 1 (parseDigitsAux 0 ds)
  | none =>
    match wordNumFirst text.data WORD_NUM with
    | some v => v
    | none =>
      if UNIT_WORDS.any (fun u => hasWholeWord u.data text.data) then 1 else 1

/-! ### `difflib` sequence matching (used by `get_close_matches`)

`normalize_food_name` calls `difflib.get_close_matches(n, candidates, n=1,
cutoff=0.7)`.  `get_close_matches` sets `seq2 := word` and, for each
candidate `x`, `seq1 := x`, keeps the `x` with
`SequenceMatcher.ratio() ≥ cutoff`, and returns the largest of the kept
`(ratio, x)` pairs.  The model below follows `difflib`'s source:

* `find_longest_match` is the `b2j`-driven scan with its strictly-greater
  best update, followed by the equal-character extension loops.  The junk
  set `bjunk` is always empty here (`get_close_matches` passes no `isjunk`
  function), so the junk guards of the scan and the junk extension loops
  are omitted: they are identically false.  The *autojunk* heuristic (for
  `len(b) >= 200`, characters of `b` occurring more than `len(b)//100 + 1`
  times are dropped from `b2j`) is kept, as `popularChars`.
* `ratio()` is `2*M/T` with `M` the total matching-block size and
  `T = len(a) + len(b)`; `0.7 ≤ 2*M/T` is embedded as the exact rational
  test `7*T ≤ 20*M`, and ratio comparisons between candidates as
  cross-multiplication.  The source compares IEEE doubles; for the string
  lengths at hand (far below 10^15) the double rounding of these rationals
  is strictly monotone, so the rational tests coincide with the float
  tests.  `quick_ratio` and `real_quick_ratio` are upper bounds of `ratio`,
  so the source's three-stage cutoff filter is equivalent to the single
  `ratio` test and is embedded as such.
-/

/-- Number of occurrences of a character in a list. -/
def countChar (c : Char) : List Char → Nat
  | [] => 0
  | d :: ds => (if d = c then 1 else 0) + countChar c ds

/-- The autojunk-popular characters of `b`: dropped from `b2j` when
`len(b) >= 200`. -/
def popularChars (b : List Char) : List Char :=
  if 200 ≤ b.length then
    b.filter (fun c => b.length / 100 + 1 < countChar c b)
  else []

/-- `j2len` lookup with default 0 (`j2len.get(j-1, 0)`). -/
def lookupJ (l : List (Nat × Nat)) (j : Nat) : Nat :=
  match l.lookup j with
  | some k => k
  | none => 0

/-- One row (one `i`) of `find_longest_match`'s scan: fold over the window
positions `j` of `b` holding `a[i]`, building the new `j2len` row and
updating the running best `(i', j', size)` on strictly greater run
length. -/
def flmRow (a b : List Char) (popular : List Char) (blo bhi i : Nat)
    (old : List (Nat × Nat)) (best : Nat × Nat × Nat) :
    List (Nat × Nat) × (Nat × Nat × Nat) :=
  let ai := a.getD i ' '
  if popular.contains ai then ([], best)
  else
    (List.range' blo (bhi - blo)).foldl
      (fun st j =>
        if b.getD j ' ' = ai then
          let k := (if j = 0 then 0 else lookupJ old (j - 1)) + 1
          let best' := if st.2.2.2 < k then (i + 1 - k, j + 1 - k, k) else st.2
          ((j, k) :: st.1, best')
        else st)
      ([], best)

/-- The full scan of `find_longest_match` over `i` in `[alo, ahi)`. -/
def flmScan (a b : List Char) (popular : List Char)
    (alo ahi blo bhi : Nat) : Nat × Nat × Nat :=
  ((List.range' alo (ahi - alo)).foldl
    (fun (st : List (Nat × Nat) × (Nat × Nat × Nat)) i =>
      flmRow a b popular blo bhi i st.1 st.2)
    ([], (alo, blo, 0))).2

/-- Left extension loop of `find_longest_match` (the junk guard is
identically true: `bjunk` is empty).  Fuel-bounded; the fuel given by
`find_longest_match` dominates the number of iterations. -/
def extendL (a b : List Char) (alo blo : Nat) :
    Nat → Nat × Nat × Nat → Nat × Nat × Nat
  | 0, st => st
  | fuel + 1, (bi, bj, bk) =>
    if alo < bi ∧ blo < bj ∧ a.getD (bi - 1) ' ' = b.getD (bj - 1) ' ' then
      extendL a b alo blo fuel (bi - 1, bj - 1, bk + 1)
    else (bi, bj, bk)

/-- Right extension loop of `find_longest_match`. -/
def extendR (a b : List Char) (ahi bhi : Nat) :
    Nat → Nat × Nat × Nat → Nat × Nat × Nat
  | 0, st => st
  | fuel + 1, (bi, bj, bk) =>
    if bi + bk < ahi ∧ bj + bk < bhi ∧ a.getD (bi + bk) ' ' = b.getD (bj + bk) ' ' then
      extendR a b ahi bhi fuel (bi, bj, bk + 1)
    else (bi, bj, bk)

/-- `SequenceMatcher.find_longest_match` on the window
`a[alo:ahi]`, `b[blo:bhi]`, with an empty junk set. -/
def find_longest_match (a b : List Char) (popular : List Char)
    (alo ahi blo bhi : Nat) : Nat × Nat × Nat :=
  let st := flmScan a b popular alo ahi blo bhi
  let st := extendL a b alo blo st.1 st
  extendR a b ahi bhi (ahi + bhi) st

/-- Total size of the matching blocks of `get_matching_blocks` on the given
window: the recursive divide at the longest match.  Fuel-bounded; each
recursive window is strictly smaller in `(ahi - alo) + (bhi - blo)`, so
fuel `(ahi - alo) + (bhi - blo)` suffices. -/
def matching_size (a b : List Char) (popular : List Char) :
    Nat → Nat → Nat → Nat → Nat → Nat
  | 0, _, _, _, _ => 0
  | fuel + 1, alo, ahi, blo, bhi =>
    match find_longest_match a b popular alo ahi blo bhi with
    | (i, j, k) =>
      if k = 0 then 0
      else
        matching_size a b popular fuel alo i blo j + k +
        matching_size a b popular fuel (i + k) ahi (j + k) bhi

/-- The numerator `M` of `SequenceMatcher(a, b).ratio() = 2M/T`. -/
def ratioM (a b : List Char) : Nat :=
  matching_size a b (popularChars b) (a.length + b.length + 1)
    0 a.length 0 b.length

/-- `difflib.get_close_matches(word, cands, n=1, cutoff=0.7)`, returning
the single best candidate if one clears the cutoff.  The best candidate is
the maximum of the `(ratio, candidate)` pairs, compared by ratio and then
by string order, exactly as Python compares the pairs; a later candidate
replaces the current best only when strictly greater. -/
def get_close_matches1 (word : List Char) (cands : List String) : Option String :=
  (cands.foldl
    (fun best cand =>
      let M := ratioM cand.data word
      let T := cand.data.length + word.length
      if 7 * T ≤ 20 * M then
        match best with
        | none => some (M, T, cand)
        | some (M0, T0, c0) =>
          if M0 * T < M * T0 || (M0 * T = M * T0 && lexLt c0.data cand.data) then
            some (M, T, cand)
          else best
      else best)
    none).map (fun x => x.2.2)

/-! ### Name resolution (`normalize_food_name`) -/

/-- The normalized phrase: `name.strip().lower()` followed by
`re.sub(r"\s+", " ", ·)`. -/
def normText (name : String) : List Char :=
  collapseWs (toLowerL (stripL name.data))

/-- First `SYNONYMS` entry (in table order) whose key is a substring of
the normalized phrase. -/
def synFirst (n : List Char) : List (String × String) → Option String
  | [] => none
  | (k, v) :: rest =>
    if isSubstr k.data n then some v else synFirst n rest

/-- `normalize_food_name` of `app.py`: synonym substring pass, then exact
catalog key, then fuzzy match, else the normalized phrase itself. -/
def normalize_food_name (name : String) : String :=
  match synFirst (normText name) SYNONYMS with
  | some v => v
  | none =>
    if (lookupS FOOD_DB ⟨normText name⟩).isSome then ⟨normText name⟩
    else
      match get_close_matches1 (normText name) (FOOD_DB.map (fun kv => kv.1)) with
      | some m => m
      | none => ⟨normText name⟩

/-! ### Calorie computation (`estimate_calories_free_text`) -/

/-- Does any of the keywords occur in the lower-cased phrase
(`any(w in text for w in [...])` with `text = item_text.lower()`)? -/
def hasAnyKeyword (ws : List String) (item_text : String) : Bool :=
  ws.any (fun w => isSubstr w.data (toLowerL item_text.data))

def FRIED_WORDS : List String := ["fried", "deep fry", "pakora", "bhaji"]
def RICH_WORDS : List String := ["butter", "cream", "cheese", "paneer", "ghee"]
def SWEET_WORDS : List String :=
  ["sweet", "dessert", "sugar", "syrup", "jamun", "jalebi", "halwa", "kheer"]
def LIGHT_WORDS : List String := ["grilled", "boiled", "steamed", "salad", "soup"]

/-- The running `base` of the fallback estimator before the `max(50, ·)`
clamp: the source's four conditional `base += / -=` updates, written as
the sum they accumulate. -/
def fallback_base (item_text : String) : Int :=
  150 + (if hasAnyKeyword FRIED_WORDS item_text then 200 else 0)
      + (if hasAnyKeyword RICH_WORDS item_text then 150 else 0)
      + (if hasAnyKeyword SWEET_WORDS item_text then 180 else 0)
      - (if hasAnyKeyword LIGHT_WORDS item_text then 50 else 0)

/-- `estimate_calories_free_text` of `app.py`: resolve the name; on a
catalog hit multiply the catalog value by the quantity, otherwise run the
generic keyword estimator on the original phrase. -/
def estimate_calories_free_text (item_text : String) : String × Int :=
  match lookupS FOOD_DB (normalize_food_name item_text) with
  | some v => (normalize_food_name item_text, v * (extract_quantity item_text : Int))
  | none =>
    (⟨stripL item_text.data⟩ ++ " (estimated)",
      max 50 (fallback_base item_text) * (extract_quantity item_text : Int))

/-- `estimate_calories_free_text` with the source's guarded dictionary
access (`if name in FOOD_DB: ... FOOD_DB[name] ...`) made explicit as an
`Option`: the access under the membership guard is the only fallible
operation of the resolver, and `none` would mean a raised exception. -/
def estimate_calories_checked (item_text : String) : Option (String × Int) :=
  if (lookupS FOOD_DB (normalize_food_name item_text)).isSome then
    (lookupS FOOD_DB (normalize_food_name item_text)).map
      (fun v => (normalize_food_name item_text, v * (extract_quantity item_text : Int)))
  else
    some (⟨stripL item_text.data⟩ ++ " (estimated)",
      max 50 (fallback_base item_text) * (extract_quantity item_text : Int))

/-! ### Suggestion helpers -/

/-- The `ALT_SUGGESTIONS` table of `app.py`, in source order. -/
def ALT_SUGGESTIONS : List (String × String) := [
  ("paratha", "Swap paratha with chapati/roti 🫓 to cut oil and save ~80–100 kcal per piece."),
  ("biryani", "Try veg pulao 🍚 or smaller portion biryani; pair with salad to fill up."),
  ("paneer butter masala", "Choose kadai paneer 🌶️ or palak paneer; ask for less butter/ghee."),
  ("fries", "Baked sweet potato wedges 🍠 or roasted chana."),
  ("burger", "Grilled chicken or paneer sandwich 🥪 with whole wheat bread, skip extra cheese."),
  ("pizza", "Thin-crust veggie pizza 🍕, go easy on cheese, add a side salad."),
  ("samosa", "Air-fried samosa or chana chaat 🥗; limit to one."),
  ("jalebi", "Fresh fruit 🍎 or a small piece of dark chocolate."),
  ("halwa", "Fruit yogurt 🍓 or kheer with less sugar.")
]

/-- The first always-appended generic tip of `generate_alternatives`. -/
def GENERIC_TIP1 : String :=
  "Choose grilled/roasted over fried 🔥→🍽️, and ask for less butter/ghee."

/-- The second always-appended generic tip of `generate_alternatives`. -/
def GENERIC_TIP2 : String :=
  "Add a fiber boost: salad, veggies, dal 🥗 to feel full with fewer calories."

/-- The keyword-matched tips: for each food item (in input order), every
`ALT_SUGGESTIONS` message (in table order) whose key is a substring of the
lower-cased item. -/
def matchedTips (food_items : List String) : List String :=
  (food_items.map (fun f =>
    ALT_SUGGESTIONS.filterMap (fun kv =>
      if isSubstr kv.1.data (toLowerL f.data) then some kv.2 else none))).flatten

/-- `dict.fromkeys`-style de-duplication keeping the first occurrence;
`seen` holds the already-emitted elements. -/
def dedupFirstAux (seen : List String) : List String → List String
  | [] => []
  | x :: xs =>
    if seen.contains x then dedupFirstAux seen xs
    else x :: dedupFirstAux (x :: seen) xs

/-- `list(dict.fromkeys(tips))`: de-duplicate keeping first occurrences. -/
def dedupFirst (l : List String) : List String :=
  dedupFirstAux [] l

/-- `generate_alternatives` of `app.py`. -/
def generate_alternatives (food_items : List String) : List String :=
  dedupFirst (matchedTips food_items ++ [GENERIC_TIP1, GENERIC_TIP2])

def ACT1 : String :=
  "Take a brisk walk 🚶‍♀️ 20–30 minutes after meals to support digestion and energy."
def ACT2 : String :=
  "Try 10–15 minutes of bodyweight moves 💪 (squats, lunges, planks) to feel active."
def ACT3 : String :=
  "On busy days, split short walks: 3×10 minutes 🕒."
def ACT_EXTRA : String :=
  "If intake is higher than usual, consider a longer walk today 🌤️ or add light yoga 🧘."

/-- `activity_suggestions` of `app.py`: three fixed strings, plus one
extra exactly when the total exceeds 2200 kcal. -/
def activity_suggestions (total_kcal : Int) : List String :=
  if 2200 < total_kcal then [ACT1, ACT2, ACT3] ++ [ACT_EXTRA]
  else [ACT1, ACT2, ACT3]

/-! ## Theorems -/

/-- Branch equation of the resolver: a catalog hit multiplies the catalog
value by the quantity. -/
theorem estimate_hit (p : String) (v : Int)
    (h : lookupS FOOD_DB (normalize_food_name p) = some v) :
    estimate_calories_free_text p =
      (normalize_food_name p, v * (extract_quantity p : Int)) := by
  unfold estimate_calories_free_text
  rw [h]

/-- Branch equation of the resolver: a catalog miss runs the generic
estimator. -/
theorem estimate_miss (p : String)
    (h : lookupS FOOD_DB (normalize_food_name p) = none) :
    estimate_calories_free_text p =
      (⟨stripL p.data⟩ ++ " (estimated)",
        max 50 (fallback_base p) * (extract_quantity p : Int)) := by
  unfold estimate_calories_free_text
  rw [h]

/-- A successful `lookupS` needs a corresponding pair in the table. -/
theorem lookupS_mem {α : Type} (k : String) (v : α) :
    ∀ l : List (String × α), lookupS l k = some v → (k, v) ∈ l := by
  intro l
  induction l with
  | nil => intro h; cases h
  | cons kv rest ih =>
    cases kv with
    | mk k0 v0 =>
      intro h
      unfold lookupS at h
      by_cases hk : k0 = k
      · rw [if_pos hk] at h
        cases h
        rw [hk]
        exact List.mem_cons_self _ _
      · rw [if_neg hk] at h
        exact List.mem_cons_of_mem _ (ih h)

/-- Every catalog value is non-negative. -/
theorem food_db_nonneg : ∀ kv ∈ FOOD_DB, (0 : Int) ≤ kv.2 := by decide

/-- The pre-clamp baseline of the generic estimator is at least 100: the
single deduction of 50 cannot undercut the 150 start, and all the other
contributions are non-negative. -/
theorem fallback_base_ge (p : String) : (100 : Int) ≤ fallback_base p := by
  unfold fallback_base
  split <;> split <;> split <;> split <;> decide

/-- C5.  For every input phrase the resolver's output satisfies the data
model invariant: the canonical name is either a `FOOD_DB` key (witnessed
by a successful catalog lookup) or the trimmed original phrase suffixed
with " (estimated)", and the calorie estimate is non-negative. -/
theorem C5_resolved_item_invariant : ∀ p : String,
    ((lookupS FOOD_DB (estimate_calories_free_text p).1).isSome = true ∨
      (estimate_calories_free_text p).1 = ⟨stripL p.data⟩ ++ " (estimated)") ∧
    0 ≤ (estimate_calories_free_text p).2 := by
  intro p
  cases h : lookupS FOOD_DB (normalize_food_name p) with
  | some v =>
    rw [estimate_hit p v h]
    constructor
    · left
      simp only []
      rw [h]
      rfl
    · have hv : (0 : Int) ≤ v := food_db_nonneg _ (lookupS_mem _ _ _ h)
      exact mul_nonneg hv (Int.natCast_nonneg _)
  | none =>
    rw [estimate_miss p h]
    constructor
    · right; rfl
    · have hb : (0 : Int) ≤ max 50 (fallback_base p) :=
        le_trans (by decide) (le_max_left 50 (fallback_base p))
      exact mul_nonneg hb (Int.natCast_nonneg _)

/-- C6.  The resolver is total: making the guarded catalog access explicit
as an `Option` (where `none` would be a raised exception), resolution
always succeeds, with unmatched names falling through to the generic
estimator, and agrees with the total function. -/
theorem C6_resolve_total : ∀ p : String,
    estimate_calories_checked p = some (estimate_calories_free_text p) := by
  intro p
  unfold estimate_calories_checked estimate_calories_free_text
  cases h : lookupS FOOD_DB (normalize_food_name p) with
  | some v => rfl
  | none => rfl

/-- C8.  `activity_suggestions` returns the same three fixed strings for
every total, with the extra "longer walk" string appended exactly when the
total exceeds 2200; at 2500 the extra string is present, at 1800 it is
not. -/
theorem C8_activity_suggestions :
    (∀ t : Int, activity_suggestions t =
      [ACT1, ACT2, ACT3] ++ (if 2200 < t then [ACT_EXTRA] else [])) ∧
    ACT_EXTRA ∈ activity_suggestions 2500 ∧
    ACT_EXTRA ∉ activity_suggestions 1800 := by
  refine ⟨fun t => ?_, by decide, by decide⟩
  unfold activity_suggestions
  by_cases h : (2200 : Int) < t
  · rw [if_pos h, if_pos h]
  · rw [if_neg h, if_neg h]
    rfl

/-- C9.  In the generic-estimator branch the pre-clamp baseline is always
at least 100, so the `max 50` clamp is the identity there, and every
estimated calorie count is at least 100 times the quantity. -/
theorem C9_baseline_clamp_slack : ∀ p : String,
    (100 : Int) ≤ fallback_base p ∧
    max 50 (fallback_base p) = fallback_base p ∧
    (lookupS FOOD_DB (normalize_food_name p) = none →
      100 * (extract_quantity p : Int) ≤ (estimate_calories_free_text p).2) := by
  intro p
  have h100 := fallback_base_ge p
  have hmax : max 50 (fallback_base p) = fallback_base p :=
    max_eq_right (le_trans (by decide) h100)
  refine ⟨h100, hmax, fun h => ?_⟩
  rw [estimate_miss p h]
  simp only []
  rw [hmax]
  exact mul_le_mul_of_nonneg_right h100 (Int.natCast_nonneg _)

/-- Witness for C9 at the unmatched phrase "qqqq". -/
theorem C9_baseline_clamp_slack_witness :
    lookupS FOOD_DB (normalize_food_name "qqqq") = none ∧
    100 * ((extract_quantity "qqqq" : Nat) : Int) ≤
      (estimate_calories_free_text "qqqq").2 :=
  ⟨by decide, (C9_baseline_clamp_slack "qqqq").2.2 (by decide)⟩

/-- Membership in the de-duplicated list implies membership in the input
and absence from the seen accumulator. -/
theorem mem_dedupFirstAux {x : String} :
    ∀ {l seen : List String}, x ∈ dedupFirstAux seen l → x ∈ l ∧ x ∉ seen := by
  intro l
  induction l with
  | nil => intro seen h; cases h
  | cons y ys ih =>
    intro seen h
    unfold dedupFirstAux at h
    by_cases hc : seen.contains y
    · rw [if_pos hc] at h
      obtain ⟨h1, h2⟩ := ih h
      exact ⟨List.mem_cons_of_mem _ h1, h2⟩
    · rw [if_neg hc] at h
      rcases List.mem_cons.mp h with hx | hx
      · refine ⟨by rw [hx]; exact List.mem_cons_self _ _, fun hs => hc ?_⟩
        rw [List.elem_iff]
        rw [hx] at hs
        exact hs
      · obtain ⟨h1, h2⟩ := ih hx
        refine ⟨List.mem_cons_of_mem _ h1, fun hs => h2 (List.mem_cons_of_mem _ hs)⟩

/-- Members of the input not yet seen survive the de-duplication. -/
theorem mem_dedupFirstAux_of {x : String} :
    ∀ {l seen : List String}, x ∈ l → x ∉ seen → x ∈ dedupFirstAux seen l := by
  intro l
  induction l with
  | nil => intro seen h _; cases h
  | cons y ys ih =>
    intro seen h hns
    unfold dedupFirstAux
    rcases List.mem_cons.mp h with hx | hx
    · by_cases hc : seen.contains y
      · exact absurd (by rw [hx]; exact List.elem_iff.mp hc) hns
      · rw [if_neg hc]
        rw [hx]
        exact List.mem_cons_self _ _
    · by_cases hc : seen.contains y
      · rw [if_pos hc]
        exact ih hx hns
      · rw [if_neg hc]
        by_cases hxy : x = y
        · rw [hxy]; exact List.mem_cons_self _ _
        · refine List.mem_cons_of_mem _ (ih hx ?_)
          intro hmem
          rcases List.mem_cons.mp hmem with h1 | h1
          · exact hxy h1
          · exact hns h1

/-- The de-duplication never emits an element twice. -/
theorem nodup_dedupFirstAux :
    ∀ (l seen : List String), (dedupFirstAux seen l).Nodup := by
  intro l
  induction l with
  | nil => intro seen; exact List.nodup_nil
  | cons y ys ih =>
    intro seen
    unfold dedupFirstAux
    by_cases hc : seen.contains y
    · rw [if_pos hc]
      exact ih seen
    · rw [if_neg hc]
      refine List.nodup_cons.mpr ⟨fun hmem => ?_, ih (y :: seen)⟩
      exact (mem_dedupFirstAux hmem).2 (List.mem_cons_self _ _)

/-- Two distinct members force length at least 2. -/
theorem two_le_length_of_mem {l : List String} {a b : String}
    (ha : a ∈ l) (hb : b ∈ l) (hne : a ≠ b) : 2 ≤ l.length := by
  cases l with
  | nil => cases ha
  | cons x xs =>
    cases xs with
    | nil =>
      rw [List.mem_singleton] at ha hb
      exact absurd (ha.trans hb.symm) hne
    | cons y ys =>
      simp only [List.length_cons]
      omega

/-- C10.  `generate_alternatives` always contains both generic tips, for
every input list (the empty list included), so its result always has
length at least 2. -/
theorem C10_alternatives_nonempty : ∀ fs : List String,
    GENERIC_TIP1 ∈ generate_alternatives fs ∧
    GENERIC_TIP2 ∈ generate_alternatives fs ∧
    2 ≤ (generate_alternatives fs).length := by
  intro fs
  have h1 : GENERIC_TIP1 ∈ generate_alternatives fs := by
    refine mem_dedupFirstAux_of ?_ (List.not_mem_nil _)
    exact List.mem_append_right _ (List.mem_cons_self _ _)
  have h2 : GENERIC_TIP2 ∈ generate_alternatives fs := by
    refine mem_dedupFirstAux_of ?_ (List.not_mem_nil _)
    exact List.mem_append_right _
      (List.mem_cons_of_mem _ (List.mem_cons_self _ _))
  exact ⟨h1, h2, two_le_length_of_mem h1 h2 (by decide)⟩

/-- C7.  `generate_alternatives` collects the keyword-matched tips of the
lower-cased input names, appends the two generic tips, and de-duplicates
preserving first-seen order; on `["paratha"]` it returns exactly the
paratha swap tip and the two generic tips, and a second name triggering
the same tip key adds no duplicate. -/
theorem C7_generate_alternatives :
    (∀ fs, generate_alternatives fs =
      dedupFirst (matchedTips fs ++ [GENERIC_TIP1, GENERIC_TIP2])) ∧
    (∀ fs, (generate_alternatives fs).Nodup) ∧
    generate_alternatives ["paratha"] =
      ["Swap paratha with chapati/roti 🫓 to cut oil and save ~80–100 kcal per piece.",
       GENERIC_TIP1, GENERIC_TIP2] ∧
    generate_alternatives ["paratha", "aloo paratha"] =
      ["Swap paratha with chapati/roti 🫓 to cut oil and save ~80–100 kcal per piece.",
       GENERIC_TIP1, GENERIC_TIP2] := by
  refine ⟨fun fs => rfl, fun fs => nodup_dedupFirstAux _ _, by decide, by decide⟩

/-- The synonym pass returns the mapped value of the first table entry (in
table order) whose key is a substring of the normalized phrase. -/
theorem synFirst_eq_find (n : List Char) :
    ∀ l : List (String × String),
      synFirst n l = (l.find? (fun e => isSubstr e.1.data n)).map (fun e => e.2) := by
  intro l
  induction l with
  | nil => rfl
  | cons kv rest ih =>
    cases kv with
    | mk k v =>
      unfold synFirst
      by_cases h : isSubstr k.data n
      · have hf : List.find? (fun e => isSubstr e.1.data n) ((k, v) :: rest) =
            some (k, v) := List.find?_cons_of_pos rest h
        rw [if_pos h, hf]
        rfl
      · have hf : List.find? (fun e => isSubstr e.1.data n) ((k, v) :: rest) =
            List.find? (fun e => isSubstr e.1.data n) rest :=
          List.find?_cons_of_neg rest (by simpa using h)
        rw [if_neg h, hf, ih]

/-- C4.  The synonym check runs first: whenever some `SYNONYMS` key is a
substring of the normalized phrase, the resolver returns the value mapped
by the first such key in table iteration order (`List.find?` order),
before any exact-catalog or fuzzy check; in particular "chicken biryani"
resolves to "biryani (1 plate)" at 550 kcal. -/
theorem C4_synonym_first :
    (∀ (p : String) (kv : String × String),
      SYNONYMS.find? (fun e => isSubstr e.1.data (normText p)) = some kv →
      normalize_food_name p = kv.2) ∧
    estimate_calories_free_text "chicken biryani" = ("biryani (1 plate)", 550) := by
  constructor
  · intro p kv h
    unfold normalize_food_name
    rw [synFirst_eq_find, h]
    rfl
  · decide

/-- Witness for C4 at "dahi vada": the "dahi" synonym entry fires. -/
theorem C4_synonym_first_witness :
    normalize_food_name "dahi vada" = "yogurt (1 cup)" :=
  C4_synonym_first.1 "dahi vada" ("dahi", "yogurt (1 cup)") (by decide)

/-- C3 counterexample: the word-number search is case-SENSITIVE (the
source's `re.search(rf"\b{w}\b", text)` has no `re.I` and runs on the raw
phrase), so "Two roti" yields quantity 1 where the claimed
case-insensitive search would yield 2 (as "two roti" does). -/
theorem C3_counterexample :
    extract_quantity "Two roti" = 1 ∧ extract_quantity "two roti" = 2 := by
  constructor <;> decide

/-- C3 (amended).  Quantity precedence: the first run of ASCII digits,
parsed and clamped to a minimum of 1, always wins (so "two 3 roti" yields
3); only with no digits is `WORD_NUM` searched case-sensitively as whole
words, the first entry in lexicon iteration order winning (so "ten two"
yields 2, and "Two roti" falls through to the default); otherwise the
quantity is 1. -/
theorem C3_quantity_precedence :
    (∀ (t : String) (ds : List Char), firstDigitRun t.data = some ds →
      extract_quantity t = max 1 (parseDigitsAux 0 ds)) ∧
    (∀ (t : String) (v : Nat), firstDigitRun t.data = none →
      wordNumFirst t.data WORD_NUM = some v → extract_quantity t = v) ∧
    (∀ t : String, firstDigitRun t.data = none →
      wordNumFirst t.data WORD_NUM = none → extract_quantity t = 1) ∧
    extract_quantity "two 3 roti" = 3 ∧
    extract_quantity "ten two" = 2 ∧
    extract_quantity "Two roti" = 1 := by
  refine ⟨?_, ?_, ?_, by decide, by decide, by decide⟩
  · intro t ds h
    unfold extract_quantity
    rw [h]
  · intro t v h1 h2
    unfold extract_quantity
    rw [h1, h2]
  · intro t h1 h2
    unfold extract_quantity
    rw [h1, h2]
    exact ite_self 1

/-- Witness for C3 at "5 idli": the digit branch fires. -/
theorem C3_quantity_precedence_witness : extract_quantity "5 idli" = 5 := by
  have h := C3_quantity_precedence.1 "5 idli" ['5'] (by decide)
  rw [h]
  decide

/-- C2.  On every phrase whose name resolution finds no catalog key, the
resolver returns the trimmed phrase suffixed " (estimated)" and
`max(50, 150 + 200·[fried group] + 150·[rich group] + 180·[sweet group]
− 50·[light group]) · quantity`, each keyword group contributing at most
once, via case-insensitive substring checks on the original phrase; in
particular "3 fried pakora" gives quantity 3, baseline 350 and estimate
1050. -/
theorem C2_generic_estimator :
    (∀ p : String, lookupS FOOD_DB (normalize_food_name p) = none →
      estimate_calories_free_text p =
        (⟨stripL p.data⟩ ++ " (estimated)",
          max 50 ((150 : Int)
            + (if hasAnyKeyword FRIED_WORDS p then 200 else 0)
            + (if hasAnyKeyword RICH_WORDS p then 150 else 0)
            + (if hasAnyKeyword SWEET_WORDS p then 180 else 0)
            - (if hasAnyKeyword LIGHT_WORDS p then 50 else 0)) *
            (extract_quantity p : Int))) ∧
    estimate_calories_free_text "3 fried pakora" =
      ("3 fried pakora (estimated)", 1050) := by
  constructor
  · intro p h
    exact estimate_miss p h
  · decide

/-- Witness for C2 at the unmatched phrase "zzzz". -/
theorem C2_generic_estimator_witness :
    lookupS FOOD_DB (normalize_food_name "zzzz") = none ∧
    estimate_calories_free_text "zzzz" = ("zzzz (estimated)", 150) := by
  refine ⟨by decide, ?_⟩
  have h := C2_generic_estimator.1 "zzzz" (by decide)
  rw [h]
  decide

/-- C1 counterexample: "coffee (1 cup)" is a catalog key with value 60,
but the resolver hits the "coffee" synonym first, which maps to the
non-key "coffee", so it falls through to the generic estimator: the
canonical name is not the key and the estimate is 150, not 60. -/
theorem C1_counterexample :
    lookupS FOOD_DB "coffee (1 cup)" = some 60 ∧
    estimate_calories_free_text "coffee (1 cup)" =
      ("coffee (1 cup) (estimated)", 150) := by
  constructor <;> decide

/-- C1 (amended).  For every catalog key `k` other than "coffee (1 cup)"
and "curd (1 cup)" (whose synonym-pass redirection loses the key),
`resolve(k)` returns canonicalName `k` and `catalogValue[k]` multiplied by
the quantity extracted from `k` itself; that quantity is 1 except for the
four keys embedding a number other than 1, whose quantities are decided
concretely: 2 for "omelette (2 eggs)", 5 for "pakora (5 pcs)", 6 for
"golgappa (6)" and 100 for "jalebi (100 g)", so that e.g.
`resolve("omelette (2 eggs)")` returns 380, not the catalog value 190. -/
theorem C1_catalog_keys :
    (∀ (k : String) (v : Int), (k, v) ∈ FOOD_DB →
      k ≠ "coffee (1 cup)" → k ≠ "curd (1 cup)" →
      (estimate_calories_free_text k = (k, v * (extract_quantity k : Int)) ∧
       (k ≠ "omelette (2 eggs)" → k ≠ "pakora (5 pcs)" →
        k ≠ "golgappa (6)" → k ≠ "jalebi (100 g)" →
        extract_quantity k = 1))) ∧
    extract_quantity "omelette (2 eggs)" = 2 ∧
    extract_quantity "pakora (5 pcs)" = 5 ∧
    extract_quantity "golgappa (6)" = 6 ∧
    extract_quantity "jalebi (100 g)" = 100 ∧
    estimate_calories_free_text "omelette (2 eggs)" =
      ("omelette (2 eggs)", 380) := by
  have H : ∀ kv ∈ FOOD_DB,
      kv.1 = "coffee (1 cup)" ∨ kv.1 = "curd (1 cup)" ∨
      (estimate_calories_free_text kv.1 =
        (kv.1, kv.2 * (extract_quantity kv.1 : Int)) ∧
       (kv.1 = "omelette (2 eggs)" ∨ kv.1 = "pakora (5 pcs)" ∨
        kv.1 = "golgappa (6)" ∨ kv.1 = "jalebi (100 g)" ∨
        extract_quantity kv.1 = 1)) := by decide
  refine ⟨?_, by decide, by decide, by decide, by decide, by decide⟩
  intro k v hmem h1 h2
  rcases H (k, v) hmem with h | h | h
  · exact absurd h h1
  · exact absurd h h2
  · refine ⟨h.1, fun e1 e2 e3 e4 => ?_⟩
    rcases h.2 with h' | h' | h' | h' | h'
    · exact absurd h' e1
    · exact absurd h' e2
    · exact absurd h' e3
    · exact absurd h' e4
    · exact h'

/-- Witness for C1 at the key "roti". -/
theorem C1_catalog_keys_witness :
    ("roti", (80 : Int)) ∈ FOOD_DB ∧
    estimate_calories_free_text "roti" = ("roti", 80) := by
  refine ⟨by decide, ?_⟩
  have h := C1_catalog_keys.1 "roti" 80 (by decide) (by decide) (by decide)
  have hq : extract_quantity "roti" = 1 :=
    h.2 (by decide) (by decide) (by decide) (by decide)
  have h1 := h.1
  rw [hq] at h1
  simpa using h1

end CalMate
